import Mathlib

/-!
Shallow embedding of the autom8 background-job core: the task abstraction and
factory (autom8/tasks.py), the execution service (autom8/services/
execution_service.py), the scheduler logging wrapper and job management
(autom8/scheduler.py), and the startup reconciliation sweep
(autom8/services/startup_service.py).

Python dictionaries are embedded as association lists of `PyVal`, Python
exceptions as a `PyErr` sum carrying the exception message (so that `str(e)`
is `PyErr.msg`), and wall-clock instants as abstract `Nat` ticks.  Points
where the environment decides an outcome (database commits, disk writes,
exceptions inside a task body) are driven by explicit oracle parameters, so
every function is executable on concrete inputs.
-/

/-- Embedded Python scalar value: a string or an integer. -/
inductive PyVal where
  | s : String → PyVal
  | i : Int → PyVal
deriving DecidableEq, Repr

/-- Python repr of a value, as used inside `str(dict)`: strings are quoted. -/
def PyVal.pyRepr : PyVal → String
  | .s v => "\x27" ++ v ++ "\x27"
  | .i n => toString n

/-- Python `str(value)`: strings print without quotes. -/
def PyVal.str0 : PyVal → String
  | .s v => v
  | .i n => toString n

/-- Embedded Python dict (insertion-ordered association list). -/
abbrev PyDict := List (String × PyVal)

/-- Embeds Python `d.get(k)` (None when absent). -/
def PyDict.get (d : PyDict) (k : String) : Option PyVal :=
  (d.find? (fun p => p.1 == k)).map (fun p => p.2)

/-- Embeds Python `d.get(k, dflt)`. -/
def PyDict.getD (d : PyDict) (k : String) (dflt : PyVal) : PyVal :=
  (PyDict.get d k).getD dflt

/-- Embeds Python `str(dict)`: `\x7b'k': repr(v), ...\x7d`. -/
def pyStrDict (d : PyDict) : String :=
  "\x7b" ++ String.intercalate ", "
    (d.map (fun p => "\x27" ++ p.1 ++ "\x27: " ++ p.2.pyRepr)) ++ "\x7d"

/-- Embedded Python exception: the constructor records the exception class
raised by the source (`ValueError`, `RuntimeError`, or any other `Exception`)
and the argument message, so that `str(e)` is `PyErr.msg`. -/
inductive PyErr where
  | valueError : String → PyErr
  | runtimeError : String → PyErr
  | exc : String → PyErr
deriving DecidableEq, Repr

/-- Embeds Python `str(e)` on an exception. -/
def PyErr.msg : PyErr → String
  | .valueError m => m
  | .runtimeError m => m
  | .exc m => m

/-- Abstract wall-clock instant (`datetime.now()` tick). -/
abbrev Time := Nat

/-- Embeds `datetime.now().strftime("%Y%m%d_%H%M%S")`; the concrete digit
layout is irrelevant to every claim, so the tick prints directly. -/
def strftimeCompact (t : Time) : String := toString t

/-- Embeds `pattern.format(timestamp)` for the single-placeholder filename
patterns of tasks.py (`"backup_\x7b\x7d.json"` and the like). -/
def formatPattern (pattern arg : String) : String :=
  pattern.replace "\x7b\x7d" arg

/-- Embeds `Path.__truediv__` (path join). -/
def pathJoin (a b : String) : String := a ++ "/" ++ b

/-- Embeds the Python slice `s[:n]`: the first `n` characters of `s`. -/
def pyTake (s : String) (n : Nat) : String := ⟨s.data.take n⟩

/-- Embeds Python `s.lower()`: ASCII lower-casing character by character. -/
def pyLower (s : String) : String := ⟨s.data.map Char.toLower⟩

/-- Embeds `Config.DATA_DIR` (config.py); the concrete directory is
environment dependent and irrelevant to the claims. -/
def Config.DATA_DIR : String := "data"

/-- Embeds `TaskConfig` (tasks.py): injected base directory and optional
filename pattern. -/
structure TaskConfig where
  base_path : String
  filename_pattern : Option String
deriving DecidableEq, Repr

/-- The three concrete `Task` subclasses registered in
`TaskFactory._task_registry` (tasks.py). -/
inductive TaskClass where
  | backup
  | cleanup
  | report
deriving DecidableEq, Repr

/-- Embeds `self.__class__.__name__`, the default task name. -/
def TaskClass.className : TaskClass → String
  | .backup => "BackupTask"
  | .cleanup => "CleanupTask"
  | .report => "ReportTask"

/-- An instantiated task (`Task.__init__`): resolved name and injected
config. -/
structure TaskInstance where
  cls : TaskClass
  name : String
  config : TaskConfig
deriving DecidableEq, Repr

/-- Environment oracle for one task execution: whether some statement inside
the `try` body of `execute()` raises (and with what message), and the current
clock tick.  tasks.py wraps the whole body in `except Exception`, so the
oracle only marks that an exception occurred; `save_json` itself returns a
Bool instead of raising and has no effect on the result dict. -/
structure TaskWorld where
  exc : Option String
  now : Time
deriving DecidableEq, Repr

/-- Embeds the `try` body of `BackupTask.execute` (tasks.py lines 68-87):
builds the backup file path from the injected config and returns the success
dict; any exception in the body surfaces as `Except.error`. -/
def BackupTask.executeBody (cfg : TaskConfig) (w : TaskWorld) : Except PyErr PyDict :=
  match w.exc with
  | some m => .error (.exc m)
  | none =>
    let timestamp := strftimeCompact w.now
    let pattern := cfg.filename_pattern.getD "backup_\x7b\x7d.json"
    let backup_file := pathJoin cfg.base_path (formatPattern pattern timestamp)
    .ok [("status", .s "success"), ("file", .s backup_file),
         ("timestamp", .s timestamp)]

/-- Embeds the `try` body of `CleanupTask.execute` (tasks.py lines 95-114):
the simulated cleanup removes zero files. -/
def CleanupTask.executeBody (_cfg : TaskConfig) (w : TaskWorld) : Except PyErr PyDict :=
  match w.exc with
  | some m => .error (.exc m)
  | none =>
    .ok [("status", .s "success"), ("files_removed", .i 0),
         ("space_freed", .s "0 MB")]

/-- Embeds the `try` body of `ReportTask.execute` (tasks.py lines 122-146). -/
def ReportTask.executeBody (cfg : TaskConfig) (w : TaskWorld) : Except PyErr PyDict :=
  match w.exc with
  | some m => .error (.exc m)
  | none =>
    let timestamp := strftimeCompact w.now
    let pattern := cfg.filename_pattern.getD "report_\x7b\x7d.json"
    let report_file := pathJoin cfg.base_path (formatPattern pattern timestamp)
    .ok [("status", .s "success"), ("report_file", .s report_file)]

/-- Dispatches to the class-specific `execute` body. -/
def TaskInstance.executeBody (t : TaskInstance) (w : TaskWorld) : Except PyErr PyDict :=
  match t.cls with
  | .backup => BackupTask.executeBody t.config w
  | .cleanup => CleanupTask.executeBody t.config w
  | .report => ReportTask.executeBody t.config w

/-- Embeds `execute()` of each concrete task: every class wraps its body in
`try ... except Exception as e: return \x7b"status": "failed", "error":
str(e)\x7d`, so execution never raises past the task boundary. -/
def TaskInstance.execute (t : TaskInstance) (w : TaskWorld) : PyDict :=
  match t.executeBody w with
  | .ok r => r
  | .error e => [("status", .s "failed"), ("error", .s e.msg)]

/-- A task registry state: mapping from (lower-cased) task-type string to
class, as held in `TaskFactory._task_registry`. -/
abbrev Registry := List (String × TaskClass)

/-- Embeds the built-in `TaskFactory._task_registry` literal (tasks.py lines
157-161). -/
def TaskFactory.builtinRegistry : Registry :=
  [("backup", .backup), ("cleanup", .cleanup), ("report", .report)]

/-- Embeds `dict.get` on the registry. -/
def Registry.lookup (reg : Registry) (k : String) : Option TaskClass :=
  (reg.find? (fun p => p.1 == k)).map (fun p => p.2)

/-- Embeds `", ".join(cls._task_registry.keys())`. -/
def Registry.availableTypes (reg : Registry) : String :=
  String.intercalate ", " (reg.map (fun p => p.1))

/-- Embeds `TaskFactory.create` (tasks.py lines 163-176): looks up
`task_type.lower()`; an unknown type raises `ValueError` with the message
listing the registered types, a known type constructs an instance of the
registered class with the `Config.DATA_DIR` config injected. -/
def TaskFactory.create (reg : Registry) (task_type : String)
    (name : Option String) : Except PyErr TaskInstance :=
  match reg.lookup (pyLower task_type) with
  | none =>
    .error (.valueError ("Unknown task type: \x27" ++ task_type ++
      "\x27. Available types: " ++ reg.availableTypes))
  | some task_class =>
    .ok { cls := task_class,
          name := name.getD task_class.className,
          config := { base_path := Config.DATA_DIR, filename_pattern := none } }

/-- Embeds `run_task` (tasks.py lines 192-194): factory creation followed by
`task.execute()`; a factory error propagates, execution itself never raises. -/
def run_task (reg : Registry) (task_type : String) (name : Option String)
    (w : TaskWorld) : Except PyErr PyDict :=
  match TaskFactory.create reg task_type name with
  | .error e => .error e
  | .ok t => .ok (t.execute w)

/-- Embeds one `TaskLog` row (models.py lines 103-113): surrogate id, type,
name, status, start instant, nullable completion instant and payloads. -/
structure TaskLogRow where
  id : Nat
  task_type : String
  task_name : String
  status : String
  started_at : Time
  completed_at : Option Time
  result_data : Option String
  error_message : Option String
deriving DecidableEq, Repr

/-- Committed database state for the `task_logs` table: rows plus the next
autoincrement id. -/
structure DB where
  rows : List TaskLogRow
  nextId : Nat
deriving DecidableEq, Repr

/-- An empty database; SQLAlchemy autoincrement ids start at 1 (the code
tests `if session and task_log_id:`, so ids are always truthy). -/
def DB.empty : DB := { rows := [], nextId := 1 }

/-- Embeds `session.query(TaskLog).get(id)`. -/
def DB.getRow (db : DB) (id : Nat) : Option TaskLogRow :=
  db.rows.find? (fun r => r.id == id)

/-- Embeds one fallback JSONL line (`_log_to_disk` entry dict): timestamp,
task_type, status, data. -/
structure FallbackEntry where
  timestamp : Time
  task_type : String
  status : String
  data : PyDict
deriving DecidableEq, Repr

/-- Observable side-effect state threaded through the execution service: the
committed database, the appended disk fallback file, and the calls made to
the `alert_task_failure` collaborator (task_type, error_message pairs). -/
structure ExecState where
  db : DB
  disk : List FallbackEntry
  alerts : List (String × String)
deriving DecidableEq, Repr

/-- Outcome oracle for the persistence steps of `_initialize_log`: either the
session opens and the insert commits, or `get_session()` raises, or the
`commit()` raises; the message is the exception text. -/
inductive InitFault where
  | ok
  | sessionFails : String → InitFault
  | commitFails : String → InitFault
deriving DecidableEq, Repr

/-- Environment oracle for one `ExecutionService.execute_task` invocation:
the init-persistence outcome, whether the finalize `commit()` succeeds,
whether the disk fallback write succeeds, the task-body oracle, and the
clock ticks observed at start, finalize and fallback-write time. -/
structure ExecWorld where
  initFault : InitFault
  finCommitOk : Bool
  diskOk : Bool
  task : TaskWorld
  startTime : Time
  endTime : Time
  diskTime : Time
deriving DecidableEq, Repr

/-- Embeds `ExecutionService._log_to_disk` (execution_service.py lines
111-126): appends one entry to the fallback JSONL file; if the write itself
raises, the exception is caught (`TRIPLE-FAULT` critical log) and the file is
unchanged — nothing propagates. -/
def ExecutionService.log_to_disk (w : ExecWorld) (disk : List FallbackEntry)
    (task_type status : String) (data : PyDict) : List FallbackEntry :=
  if w.diskOk then
    disk ++ [{ timestamp := w.diskTime, task_type := task_type,
               status := status, data := data }]
  else
    disk

/-- Embeds `ExecutionService._initialize_log` (execution_service.py lines
50-71).  Returns the new state, whether a session object was obtained
(`session` non-None), and the created log id (`task_log_id`).  On a
persistence exception the fallback entry carries status `running` and data
`\x7b"error": "DB_DOWN", "msg": str(e)\x7d`, and execution proceeds. -/
def ExecutionService.initialize_log (w : ExecWorld) (s : ExecState)
    (task_type : String) (task_name : Option String) :
    ExecState × Bool × Option Nat :=
  match w.initFault with
  | .ok =>
    let row : TaskLogRow :=
      { id := s.db.nextId, task_type := task_type,
        task_name := task_name.getD task_type, status := "running",
        started_at := w.startTime, completed_at := none,
        result_data := none, error_message := none }
    ({ s with db := { rows := s.db.rows ++ [row], nextId := s.db.nextId + 1 } },
     true, some row.id)
  | .sessionFails m =>
    let disk := ExecutionService.log_to_disk w s.disk task_type "running"
      [("error", .s "DB_DOWN"), ("msg", .s m)]
    ({ s with disk := disk }, false, none)
  | .commitFails m =>
    let disk := ExecutionService.log_to_disk w s.disk task_type "running"
      [("error", .s "DB_DOWN"), ("msg", .s m)]
    ({ s with disk := disk }, true, none)

/-- Embeds `ExecutionService._run_task` (execution_service.py lines 73-82):
runs `run_task` and converts any raised exception into
`\x7b"status": "failed", "error": str(e)\x7d`; never raises. -/
def ExecutionService.run_task0 (reg : Registry) (task_type : String)
    (task_name : Option String) (w : TaskWorld) : PyDict :=
  match run_task reg task_type task_name w with
  | .ok r => r
  | .error e => [("status", .s "failed"), ("error", .s e.msg)]

/-- Embeds `ExecutionService._finalize_log` (execution_service.py lines
84-109): with a live session and a log id, loads the row, sets status and
`completed_at`, stores the truncated payload (`result_data` on completed,
`error_message` otherwise) and commits; every exception path — missing
session or id, missing row, failing commit — is caught and routed to the
disk fallback carrying the finalization status and the result dict. -/
def ExecutionService.finalize_log (w : ExecWorld) (s : ExecState)
    (sessionLive : Bool) (task_log_id : Option Nat)
    (task_type status : String) (result : PyDict) : ExecState :=
  match sessionLive, task_log_id with
  | true, some id =>
    match s.db.getRow id with
    | some _ =>
      if w.finCommitOk then
        let rows := s.db.rows.map (fun r =>
          if r.id == id then
            { r with
              status := status
              completed_at := some w.endTime
              result_data := (if status == "completed"
                then some (pyTake (pyStrDict result) 500) else r.result_data)
              error_message := (if status == "completed" then r.error_message
                else some (pyTake (PyDict.getD result "error" (.s "Unknown")).str0 500)) }
          else r)
        { s with db := { s.db with rows := rows } }
      else
        { s with disk := ExecutionService.log_to_disk w s.disk task_type status result }
    | none =>
      { s with disk := ExecutionService.log_to_disk w s.disk task_type status result }
  | _, _ =>
    { s with disk := ExecutionService.log_to_disk w s.disk task_type status result }

/-- Embeds `ExecutionService.execute_task` (execution_service.py lines
29-48): initialize the log, run the task, finalize with `completed` exactly
when the result status is `success` and `failed` otherwise, alert on
`failed`, and return the task result itself. -/
def ExecutionService.execute_task (reg : Registry) (task_type : String)
    (task_name : Option String) (w : ExecWorld) (s : ExecState) :
    PyDict × ExecState :=
  let init := ExecutionService.initialize_log w s task_type task_name
  let result := ExecutionService.run_task0 reg task_type task_name w.task
  let status := if PyDict.get result "status" == some (.s "success")
    then "completed" else "failed"
  let s2 := ExecutionService.finalize_log w init.1 init.2.1 init.2.2
    task_type status result
  let s3 :=
    if status == "failed" then
      { s2 with alerts := s2.alerts ++
          [(task_type, (PyDict.getD result "error" (.s "Unknown error")).str0)] }
    else s2
  (result, s3)

/-- Message of the exception SQLAlchemy raises when `commit()` is called on a
session whose previous `commit()` already failed (pending rollback); the
concrete wording is library internal and irrelevant to the claims. -/
def pendingRollbackMsg : String := "Session transaction has been rolled back"

/-- Environment oracle for one scheduler firing through
`execute_task_with_logging`: the outcome of the first commit (row insert),
of the success-path commit, and of the except-path commit (`none` means it
succeeds, `some m` that it raises with message `m`); the task-body oracle;
and the clock ticks at start and finalize.  A commit on a session whose
earlier commit failed always raises again (pending rollback), so that case
is not oracle driven. -/
structure SchedWorld where
  commit1 : Option String
  commit2 : Option String
  commitE : Option String
  task : TaskWorld
  t0 : Time
  t1 : Time
deriving DecidableEq, Repr

/-- Embeds `execute_task_with_logging` (scheduler.py lines 29-76), the
function every scheduled job binds as its callable.  Inserts a `running`
TaskLog row and commits; runs `run_task`; on normal return sets the row to
`completed` with truncated `result_data` and commits, returning the result
unchanged; if anything in the `try` body raised, the except block sets the
row to `failed` with truncated `error_message`, commits, alerts, and returns
`\x7b"status": "failed", "error": str(e)\x7d`.  An exception raised inside
the except block itself (a failing commit) propagates to the caller.
Returns (result or propagated exception, committed database, alert calls). -/
def execute_task_with_logging (reg : Registry) (task_type : String)
    (task_name : Option String) (w : SchedWorld) (db : DB) :
    Except PyErr PyDict × DB × List (String × String) :=
  match w.commit1 with
  | some _ =>
    -- the insert commit raised: the except block mutates the detached row and
    -- calls commit on the rolled-back session, which raises again before the
    -- alert line is reached; nothing was persisted
    (.error (.exc pendingRollbackMsg), db, [])
  | none =>
    let row : TaskLogRow :=
      { id := db.nextId, task_type := task_type,
        task_name := task_name.getD task_type, status := "running",
        started_at := w.t0, completed_at := none,
        result_data := none, error_message := none }
    let db1 : DB := { rows := db.rows ++ [row], nextId := db.nextId + 1 }
    match run_task reg task_type task_name w.task with
    | .ok result =>
      match w.commit2 with
      | none =>
        let rows := db1.rows.map (fun r =>
          if r.id == row.id then
            { r with
              status := "completed"
              completed_at := some w.t1
              result_data := some (pyTake (pyStrDict result) 500) }
          else r)
        (.ok result, { db1 with rows := rows }, [])
      | some _ =>
        -- the update commit raised: the except block sets the failed fields
        -- and commits on the now rolled-back session, which raises again; the
        -- update is lost and the row stays `running`
        (.error (.exc pendingRollbackMsg), db1, [])
    | .error e =>
      match w.commitE with
      | none =>
        let rows := db1.rows.map (fun r =>
          if r.id == row.id then
            { r with
              status := "failed"
              completed_at := some w.t1
              error_message := some (pyTake e.msg 500) }
          else r)
        (.ok [("status", .s "failed"), ("error", .s e.msg)],
         { db1 with rows := rows }, [(task_type, e.msg)])
      | some m2 =>
        -- the except-path commit raised: propagates before the alert line
        (.error (.exc m2), db1, [])

/-- A job entry owned by the scheduler (APScheduler job table).  Every job in
this repository binds `execute_task_with_logging` with `args=[task_type]`, so
the bound callable is captured by its task_type and task_name. -/
structure Job where
  id : String
  name : String
  task_type : String
  task_name : Option String
  next_run_time : Option Time
  paused : Bool
  trigger : String
deriving DecidableEq, Repr

/-- The in-process scheduler object: the job table and whether `start()` has
been called. -/
structure Sched where
  jobs : List Job
  running : Bool
deriving DecidableEq, Repr

/-- The module-level `scheduler` global: `none` before `init_scheduler()`. -/
abbrev SchedulerGlobal := Option Sched

/-- Embeds `init_scheduler` (scheduler.py lines 89-115): a second call on an
already-initialized scheduler logs a warning and returns the existing
instance; otherwise a fresh scheduler with an empty job table is created. -/
def init_scheduler (sched : SchedulerGlobal) : Sched :=
  match sched with
  | some s => s
  | none => { jobs := [], running := false }

/-- Embeds `datetime.isoformat()`; the concrete layout is irrelevant to the
claims, so the tick prints directly. -/
def isoformat (t : Time) : String := toString t

/-- One entry of the `get_scheduled_jobs` listing. -/
structure JobInfo where
  id : String
  name : String
  next_run_time : String
  trigger : String
deriving DecidableEq, Repr

/-- Embeds `get_scheduled_jobs` (scheduler.py lines 200-217): the empty list
when the scheduler global is None, otherwise one info dict per job with
`next_run_time` rendered ISO-8601 or `"N/A"` when unset. -/
def get_scheduled_jobs (sched : SchedulerGlobal) : List JobInfo :=
  match sched with
  | none => []
  | some s =>
    s.jobs.map (fun j =>
      { id := j.id, name := j.name,
        next_run_time := (match j.next_run_time with
          | some t => isoformat t
          | none => "N/A"),
        trigger := j.trigger })

/-- Embeds `stop_scheduler` (scheduler.py lines 188-197): on an uninitialized
scheduler it logs a warning and returns normally (no exception, no state
change); otherwise it shuts the scheduler down when running.  The `wait` flag
only controls thread joining and has no modelled effect. -/
def stop_scheduler (sched : SchedulerGlobal) (_wait : Bool) : SchedulerGlobal :=
  match sched with
  | none => none
  | some s => if s.running then some { s with running := false } else some s

/-- Embeds the `JobLookupError` APScheduler raises for an unknown job id. -/
def jobLookupError (job_id : String) : PyErr :=
  .exc ("No job by the id of " ++ job_id ++ " was found")

/-- Embeds `pause_job` (scheduler.py lines 220-225): raises
`RuntimeError("Scheduler not initialized")` before `init_scheduler()`;
otherwise suspends the job (APScheduler clears its next fire time) or raises
`JobLookupError` on an unknown id. -/
def pause_job (sched : SchedulerGlobal) (job_id : String) : Except PyErr Sched :=
  match sched with
  | none => .error (.runtimeError "Scheduler not initialized")
  | some s =>
    if s.jobs.any (fun j => j.id == job_id) then
      .ok { s with jobs := s.jobs.map (fun j =>
        if j.id == job_id then { j with paused := true, next_run_time := none }
        else j) }
    else
      .error (jobLookupError job_id)

/-- Embeds `resume_job` (scheduler.py lines 228-233): raises
`RuntimeError("Scheduler not initialized")` before `init_scheduler()`;
otherwise reschedules the job (APScheduler recomputes the next fire time
from the trigger, abstracted here as the `next_time` parameter) or raises
`JobLookupError` on an unknown id. -/
def resume_job (sched : SchedulerGlobal) (job_id : String) (next_time : Time) :
    Except PyErr Sched :=
  match sched with
  | none => .error (.runtimeError "Scheduler not initialized")
  | some s =>
    if s.jobs.any (fun j => j.id == job_id) then
      .ok { s with jobs := s.jobs.map (fun j =>
        if j.id == job_id then
          { j with paused := false, next_run_time := some next_time }
        else j) }
    else
      .error (jobLookupError job_id)

/-- Embeds `remove_job` (scheduler.py lines 236-241): raises
`RuntimeError("Scheduler not initialized")` before `init_scheduler()`;
otherwise deletes the job from the table or raises `JobLookupError`. -/
def remove_job (sched : SchedulerGlobal) (job_id : String) : Except PyErr Sched :=
  match sched with
  | none => .error (.runtimeError "Scheduler not initialized")
  | some s =>
    if s.jobs.any (fun j => j.id == job_id) then
      .ok { s with jobs := s.jobs.filter (fun j => !(j.id == job_id)) }
    else
      .error (jobLookupError job_id)

/-- Embeds `run_job_now` (scheduler.py lines 244-254): raises
`RuntimeError("Scheduler not initialized")` before `init_scheduler()`; on a
missing id raises `ValueError("Job <id> not found")` without invoking the
bound function (the database and the alert collaborator are untouched);
otherwise synchronously invokes the bound `execute_task_with_logging`.
Returns (outcome, database, alert calls). -/
def run_job_now (sched : SchedulerGlobal) (reg : Registry) (job_id : String)
    (w : SchedWorld) (db : DB) :
    Except PyErr Unit × DB × List (String × String) :=
  match sched with
  | none => (.error (.runtimeError "Scheduler not initialized"), db, [])
  | some s =>
    match s.jobs.find? (fun j => j.id == job_id) with
    | none => (.error (.valueError ("Job " ++ job_id ++ " not found")), db, [])
    | some job =>
      let r := execute_task_with_logging reg job.task_type job.task_name w db
      ((match r.1 with
        | .ok _ => .ok ()
        | .error e => .error e), r.2.1, r.2.2)

/-- Outcome oracle for the persistence steps of `reconcile_zombie_tasks`:
either the sweep persists, or the initial query raises, or the final
`commit()` raises. -/
inductive ReconFault where
  | ok
  | queryFails : String → ReconFault
  | commitFails : String → ReconFault
deriving DecidableEq, Repr

/-- The fixed explanatory message written by the reconciliation sweep. -/
def interruptedMsg : String := "System shutdown or interruption detected."

/-- The per-row update applied by the reconciliation loop: every `running`
row becomes `interrupted` with `completed_at = now` and the fixed message;
every other row is untouched. -/
def reconcileUpdate (db : DB) (now : Time) : DB :=
  { db with rows := db.rows.map (fun r =>
      if r.status == "running" then
        { r with
          status := "interrupted"
          completed_at := some now
          error_message := some interruptedMsg }
      else r) }

/-- Embeds `reconcile_zombie_tasks` (startup_service.py lines 15-42): query
the `running` rows; if none, return without committing; otherwise mark each
as interrupted and commit once.  The whole body sits in a
`try/except Exception` that logs and swallows, so a raising query or commit
leaves the committed table unchanged (the session rolls back on close) and
nothing propagates to the caller.  The Bool reports whether a commit was
issued and succeeded. -/
def reconcile_zombie_tasks (db : DB) (now : Time) (fault : ReconFault) :
    DB × Bool :=
  match fault with
  | .queryFails _ => (db, false)
  | .ok =>
    let zombies := db.rows.filter (fun r => r.status == "running")
    if zombies.isEmpty then (db, false)
    else (reconcileUpdate db now, true)
  | .commitFails _ =>
    let zombies := db.rows.filter (fun r => r.status == "running")
    if zombies.isEmpty then (db, false)
    else (db, false)

/-- Row-level TaskLog invariant: a `running` row has no completion instant,
and every non-running row has one. -/
def RowInv (r : TaskLogRow) : Prop :=
  (r.status = "running" → r.completed_at = none) ∧
  (r.status ≠ "running" → r.completed_at ≠ none)

/-- The TaskLog invariant over every committed row. -/
def DBInv (db : DB) : Prop := ∀ r ∈ db.rows, RowInv r

/-- Well-formedness of the autoincrement key: every committed row has an id
below the next id to be assigned. -/
def DB.WF (db : DB) : Prop := ∀ r ∈ db.rows, r.id < db.nextId

/-- The TaskLog row `execute_task` commits when both persistence steps
succeed: the freshly inserted row finalized with the status derived from the
task result and the truncated payload. -/
def expectedFinalRow (reg : Registry) (task_type : String)
    (task_name : Option String) (w : ExecWorld) (s : ExecState) : TaskLogRow :=
  let result := ExecutionService.run_task0 reg task_type task_name w.task
  let st := if PyDict.get result "status" == some (.s "success")
    then "completed" else "failed"
  { id := s.db.nextId, task_type := task_type,
    task_name := task_name.getD task_type, status := st,
    started_at := w.startTime, completed_at := some w.endTime,
    result_data := (if st == "completed"
      then some (pyTake (pyStrDict result) 500) else none),
    error_message := (if st == "completed" then none
      else some (pyTake (PyDict.getD result "error" (.s "Unknown")).str0 500)) }

/-- A Python slice `s[:n]` has at most `n` characters. -/
theorem pyTake_length_le (s : String) (n : Nat) : (pyTake s n).length ≤ n := by
  show (s.data.take n).length ≤ n
  rw [List.length_take]
  exact Nat.min_le_left n s.data.length

/-- C5: for every task-type string not present in the registry, the factory
raises the error the spec taxonomy calls ConfigurationError (a `ValueError`
in the source) with message `Unknown task type: <x>. Available types: <list>`
listing the currently registered types, and never constructs a default task;
for every registered type — looked up case-insensitively via
`task_type.lower()` — it constructs an instance of the registered class. -/
theorem task_factory_create_spec (reg : Registry) (task_type : String)
    (name : Option String) :
    (Registry.lookup reg (pyLower task_type) = none →
      TaskFactory.create reg task_type name =
        .error (.valueError ("Unknown task type: \x27" ++ task_type ++
          "\x27. Available types: " ++ reg.availableTypes))) ∧
    (∀ c : TaskClass, Registry.lookup reg (pyLower task_type) = some c →
      TaskFactory.create reg task_type name =
        .ok { cls := c, name := name.getD c.className,
              config := { base_path := Config.DATA_DIR,
                          filename_pattern := none } }) := by
  constructor
  · intro h
    simp [TaskFactory.create, h]
  · intro c h
    simp [TaskFactory.create, h]

/-- Witness for C5: an unknown type yields the listed error, and a
mixed-case spelling of a registered type constructs the registered class. -/
theorem task_factory_create_spec_witness :
    (TaskFactory.create TaskFactory.builtinRegistry "mystery" none =
      .error (.valueError ("Unknown task type: \x27" ++ "mystery" ++
        "\x27. Available types: " ++ TaskFactory.builtinRegistry.availableTypes))) ∧
    (TaskFactory.create TaskFactory.builtinRegistry "BaCkUp" none =
      .ok { cls := .backup, name := (none : Option String).getD TaskClass.backup.className,
            config := { base_path := Config.DATA_DIR,
                        filename_pattern := none } }) :=
  ⟨(task_factory_create_spec TaskFactory.builtinRegistry "mystery" none).1 (by decide),
   (task_factory_create_spec TaskFactory.builtinRegistry "BaCkUp" none).2 .backup (by decide)⟩

/-- C10: listing jobs before the scheduler is initialized returns the empty
list rather than raising, and stopping an uninitialized scheduler is a
warning no-op returning normally, in contrast to pause, resume and remove,
which raise `RuntimeError("Scheduler not initialized")` in that state. -/
theorem uninitialized_scheduler_reads_spec (wait : Bool) (job_id : String)
    (next_time : Time) :
    get_scheduled_jobs none = [] ∧
    stop_scheduler none wait = none ∧
    pause_job none job_id = .error (.runtimeError "Scheduler not initialized") ∧
    resume_job none job_id next_time =
      .error (.runtimeError "Scheduler not initialized") ∧
    remove_job none job_id = .error (.runtimeError "Scheduler not initialized") :=
  ⟨rfl, rfl, rfl, rfl, rfl⟩

/-- C7: pause, resume and remove each raise
`RuntimeError("Scheduler not initialized")` — the error the spec taxonomy
calls SchedulerNotInitialized — when invoked before `init_scheduler()`;
`run_job_now` on a job id absent from the job table raises the JobNotFound
error `ValueError("Job <id> not found")`, leaves the TaskLog table unchanged
and dispatches no alert: the bound job function is never invoked on that
path. -/
theorem scheduler_uninitialized_and_missing_job_spec (job_id : String)
    (next_time : Time) (reg : Registry) (w : SchedWorld) (db : DB) :
    pause_job none job_id = .error (.runtimeError "Scheduler not initialized") ∧
    resume_job none job_id next_time =
      .error (.runtimeError "Scheduler not initialized") ∧
    remove_job none job_id = .error (.runtimeError "Scheduler not initialized") ∧
    (∀ s : Sched, s.jobs.find? (fun j => j.id == job_id) = none →
      run_job_now (some s) reg job_id w db =
        (.error (.valueError ("Job " ++ job_id ++ " not found")), db, [])) := by
  refine ⟨rfl, rfl, rfl, ?_⟩
  intro s h
  simp [run_job_now, h]

/-- Witness for C7: running a job now on an empty job table raises
JobNotFound and leaves the database untouched. -/
theorem scheduler_uninitialized_and_missing_job_spec_witness :
    run_job_now (some { jobs := [], running := false })
        TaskFactory.builtinRegistry "ghost"
        { commit1 := none, commit2 := none, commitE := none,
          task := { exc := none, now := 0 }, t0 := 0, t1 := 0 } DB.empty =
      (.error (.valueError ("Job " ++ "ghost" ++ " not found")), DB.empty, []) :=
  (scheduler_uninitialized_and_missing_job_spec "ghost" 0
    TaskFactory.builtinRegistry
    { commit1 := none, commit2 := none, commitE := none,
      task := { exc := none, now := 0 }, t0 := 0, t1 := 0 } DB.empty).2.2.2
    { jobs := [], running := false } rfl

/-- C8: for every task type registered in the factory (backup, cleanup,
report), `create(type).execute()` returns a dict whose `status` entry is
`success` or `failed`, and execution never raises past its own boundary: an
exception inside the body is converted into
`\x7b"status": "failed", "error": str(e)\x7d`. -/
theorem builtin_task_execute_status_spec (task_type : String)
    (name : Option String) (w : TaskWorld)
    (h : task_type = "backup" ∨ task_type = "cleanup" ∨ task_type = "report") :
    ∃ t : TaskInstance,
      TaskFactory.create TaskFactory.builtinRegistry task_type name = .ok t ∧
      (PyDict.get (t.execute w) "status" = some (.s "success") ∨
       PyDict.get (t.execute w) "status" = some (.s "failed")) ∧
      (∀ m, w.exc = some m →
        t.execute w = [("status", .s "failed"), ("error", .s m)]) := by
  rcases h with h | h | h <;> subst h <;> refine ⟨_, rfl, ?_, ?_⟩ <;>
  rcases hw : w.exc with _ | m <;>
    simp [TaskInstance.execute, TaskInstance.executeBody,
      BackupTask.executeBody, CleanupTask.executeBody, ReportTask.executeBody,
      hw, PyDict.get, List.find?, PyErr.msg]

/-- Witness for C8: the backup type, executed in an environment where the
body raises `boom`, still returns a failed-status dict. -/
theorem builtin_task_execute_status_spec_witness :
    ∃ t : TaskInstance,
      TaskFactory.create TaskFactory.builtinRegistry "backup" none = .ok t ∧
      (PyDict.get (t.execute { exc := some "boom", now := 0 }) "status" =
         some (.s "success") ∨
       PyDict.get (t.execute { exc := some "boom", now := 0 }) "status" =
         some (.s "failed")) ∧
      (∀ m, ({ exc := some "boom", now := 0 } : TaskWorld).exc = some m →
        t.execute { exc := some "boom", now := 0 } =
          [("status", .s "failed"), ("error", .s m)]) :=
  builtin_task_execute_status_spec "backup" none
    { exc := some "boom", now := 0 } (Or.inl rfl)

/-- C1 claims that a scheduler firing whose task execution produces a
failure is finalized as `failed` with an alert dispatched, and that a task
whose `execute()` yields a failure outcome is never recorded as `completed`.
The code violates this: `execute_task_with_logging` never inspects the
result dict, so a backup task that returns
`\x7b"status": "failed", "error": "disk full"\x7d` (tasks convert internal
exceptions into failure results instead of raising) is committed with
status `completed`, the failure dict stored in `result_data`,
`error_message` left NULL, and no alert dispatched. -/
theorem scheduler_failed_result_recorded_completed :
    (execute_task_with_logging TaskFactory.builtinRegistry "backup" none
        { commit1 := none, commit2 := none, commitE := none,
          task := { exc := some "disk full", now := 0 }, t0 := 0, t1 := 1 }
        DB.empty).1 =
      .ok [("status", .s "failed"), ("error", .s "disk full")] ∧
    ((execute_task_with_logging TaskFactory.builtinRegistry "backup" none
        { commit1 := none, commit2 := none, commitE := none,
          task := { exc := some "disk full", now := 0 }, t0 := 0, t1 := 1 }
        DB.empty).2.1.rows.map (fun r =>
          (r.status, r.error_message, r.result_data))) =
      [("completed", none,
        some "\x7b\x27status\x27: \x27failed\x27, \x27error\x27: \x27disk full\x27\x7d")] ∧
    (execute_task_with_logging TaskFactory.builtinRegistry "backup" none
        { commit1 := none, commit2 := none, commitE := none,
          task := { exc := some "disk full", now := 0 }, t0 := 0, t1 := 1 }
        DB.empty).2.2 = [] :=
  ⟨rfl, rfl, rfl⟩

/-- C2: on a TaskLog table with N `running` rows and M others,
`reconcile_zombie_tasks()` transitions exactly the N running rows to
`interrupted` with `completed_at` set and the fixed explanatory message,
leaves the M other rows unchanged, and commits; with zero running rows it
commits nothing and the table is unchanged; and a raising query or commit is
caught — the caller always gets a normal return with the table unchanged. -/
theorem reconcile_zombie_tasks_spec (db : DB) (now : Time) :
    ((reconcile_zombie_tasks db now .ok).1.rows =
      db.rows.map (fun r =>
        if r.status = "running" then
          { r with
            status := "interrupted"
            completed_at := some now
            error_message := some interruptedMsg }
        else r)) ∧
    ((reconcile_zombie_tasks db now .ok).2 = true ↔
      ∃ r ∈ db.rows, r.status = "running") ∧
    ((∀ r ∈ db.rows, r.status ≠ "running") →
      reconcile_zombie_tasks db now .ok = (db, false)) ∧
    (∀ m, reconcile_zombie_tasks db now (.queryFails m) = (db, false)) ∧
    (∀ m, reconcile_zombie_tasks db now (.commitFails m) = (db, false)) := by
  have hfilter : (db.rows.filter (fun r => r.status == "running")).isEmpty = true ↔
      ∀ r ∈ db.rows, r.status ≠ "running" := by
    rw [List.isEmpty_iff, List.filter_eq_nil_iff]
    simp
  refine ⟨?_, ?_, ?_, ?_, ?_⟩
  · show (if (db.rows.filter (fun r => r.status == "running")).isEmpty
        then (db, false) else (reconcileUpdate db now, true)).1.rows = _
    rcases hE : (db.rows.filter (fun r => r.status == "running")).isEmpty with _ | _
    · simp only [hE, if_neg Bool.false_ne_true, reconcileUpdate]
      refine List.map_congr_left ?_
      intro a _
      by_cases h : a.status = "running" <;> simp [h]
    · simp only [hE, if_pos rfl]
      have hall := hfilter.1 hE
      symm
      refine List.map_congr_left (f := fun r => _) (g := id) ?_ |>.trans (List.map_id _)
      intro a ha
      simp [hall a ha]
  · show (if (db.rows.filter (fun r => r.status == "running")).isEmpty
        then (db, false) else (reconcileUpdate db now, true)).2 = true ↔ _
    rcases hE : (db.rows.filter (fun r => r.status == "running")).isEmpty with _ | _
    · simp only [hE, if_neg Bool.false_ne_true]
      have hne : db.rows.filter (fun r => r.status == "running") ≠ [] := by
        intro hnil
        rw [hnil] at hE
        simp at hE
      obtain ⟨r, hr⟩ := List.exists_mem_of_ne_nil _ hne
      have hmem := List.mem_filter.1 hr
      constructor
      · intro _
        exact ⟨r, hmem.1, by simpa using hmem.2⟩
      · intro _
        trivial
    · simp only [hE, if_pos rfl]
      have hall := hfilter.1 hE
      constructor
      · intro h
        simp at h
      · rintro ⟨r, hr, hst⟩
        exact absurd hst (hall r hr)
  · intro hall
    show (if (db.rows.filter (fun r => r.status == "running")).isEmpty
        then (db, false) else (reconcileUpdate db now, true)) = (db, false)
    rw [if_pos (hfilter.2 hall)]
  · intro m; rfl
  · intro m
    show (if (db.rows.filter (fun r => r.status == "running")).isEmpty
        then (db, false) else (db, false)) = (db, false)
    exact ite_self _

/-- Witness for C2: a table whose only row is already `completed` is left
unchanged and nothing is committed. -/
theorem reconcile_zombie_tasks_spec_witness :
    reconcile_zombie_tasks
        { rows := [{ id := 1, task_type := "backup", task_name := "b",
                     status := "completed", started_at := 0,
                     completed_at := some 2, result_data := none,
                     error_message := none }], nextId := 2 } 7 .ok =
      ({ rows := [{ id := 1, task_type := "backup", task_name := "b",
                    status := "completed", started_at := 0,
                    completed_at := some 2, result_data := none,
                    error_message := none }], nextId := 2 }, false) :=
  (reconcile_zombie_tasks_spec _ 7).2.2.1 (by decide)

/-- Appending a row that satisfies the row invariant preserves the table
invariant. -/
theorem DBInv.append {db : DB} {row : TaskLogRow} {n : Nat}
    (h : DBInv db) (hr : RowInv row) :
    DBInv { rows := db.rows ++ [row], nextId := n } := by
  intro r hmem
  rcases List.mem_append.1 hmem with h1 | h1
  · exact h r h1
  · rw [List.mem_singleton.1 h1]
    exact hr

/-- Mapping a pointwise invariant-preserving update over the rows preserves
the table invariant. -/
theorem DBInv.map {db : DB} {f : TaskLogRow → TaskLogRow} {n : Nat}
    (h : DBInv db) (hf : ∀ r, RowInv r → RowInv (f r)) :
    DBInv { rows := db.rows.map f, nextId := n } := by
  intro r hmem
  rcases List.mem_map.1 hmem with ⟨a, ha, rfl⟩
  exact hf a (h a ha)

/-- A freshly inserted `running` row satisfies the row invariant. -/
theorem RowInv_running (id : Nat) (task_type task_name : String) (t : Time) :
    RowInv { id := id, task_type := task_type, task_name := task_name,
             status := "running", started_at := t, completed_at := none,
             result_data := none, error_message := none } :=
  ⟨fun _ => rfl, fun h => absurd rfl h⟩

/-- Log initialization preserves the TaskLog invariant. -/
theorem initialize_log_DBInv (w : ExecWorld) (s : ExecState)
    (task_type : String) (task_name : Option String) (h : DBInv s.db) :
    DBInv (ExecutionService.initialize_log w s task_type task_name).1.db := by
  rcases hf : w.initFault with _ | m | m <;>
    simp only [ExecutionService.initialize_log, hf]
  · exact DBInv.append h (RowInv_running _ _ _ _)
  · exact h
  · exact h

/-- Log finalization with a terminal status preserves the TaskLog
invariant. -/
theorem finalize_log_DBInv (w : ExecWorld) (s : ExecState) (live : Bool)
    (logId : Option Nat) (task_type st : String) (result : PyDict)
    (hst : st ≠ "running") (h : DBInv s.db) :
    DBInv (ExecutionService.finalize_log w s live logId task_type st result).db := by
  rcases live with _ | _ <;> rcases logId with _ | id <;>
    simp only [ExecutionService.finalize_log] <;> try exact h
  rcases hrow : s.db.getRow id with _ | r
  · simp only [hrow]
    exact h
  · simp only [hrow]
    rcases hfc : w.finCommitOk with _ | _
    · simp only [hfc, if_neg Bool.false_ne_true]
      exact h
    · simp only [hfc, if_pos rfl]
      refine DBInv.map h ?_
      intro a hInv
      by_cases ha : (a.id == id) = true
      · simp only [ha, if_pos rfl]
        exact ⟨fun hcon => absurd hcon hst, fun _ => by simp⟩
      · simp only [ha, if_neg Bool.false_ne_true]
        exact hInv

/-- The database `execute_task` leaves behind is the one produced by the
finalize step; the alert step only touches the alert list. -/
theorem execute_task_db_eq (reg : Registry) (task_type : String)
    (task_name : Option String) (w : ExecWorld) (s : ExecState) :
    (ExecutionService.execute_task reg task_type task_name w s).2.db =
      (ExecutionService.finalize_log w
        (ExecutionService.initialize_log w s task_type task_name).1
        (ExecutionService.initialize_log w s task_type task_name).2.1
        (ExecutionService.initialize_log w s task_type task_name).2.2
        task_type
        (if PyDict.get (ExecutionService.run_task0 reg task_type task_name w.task)
            "status" == some (.s "success") then "completed" else "failed")
        (ExecutionService.run_task0 reg task_type task_name w.task)).db := by
  unfold ExecutionService.execute_task
  dsimp only
  split <;> rfl

/-- Task execution through the execution service preserves the TaskLog
invariant. -/
theorem execute_task_DBInv (reg : Registry) (task_type : String)
    (task_name : Option String) (w : ExecWorld) (s : ExecState)
    (h : DBInv s.db) :
    DBInv (ExecutionService.execute_task reg task_type task_name w s).2.db := by
  rw [execute_task_db_eq]
  refine finalize_log_DBInv _ _ _ _ _ _ _ ?_
    (initialize_log_DBInv w s task_type task_name h)
  split <;> decide

/-- A scheduler firing through `execute_task_with_logging` preserves the
TaskLog invariant. -/
theorem scheduler_logging_DBInv (reg : Registry) (task_type : String)
    (task_name : Option String) (sw : SchedWorld) (db : DB) (h : DBInv db) :
    DBInv (execute_task_with_logging reg task_type task_name sw db).2.1 := by
  unfold execute_task_with_logging
  rcases hc1 : sw.commit1 with _ | m
  · have hdb1 : DBInv { rows := db.rows ++
        [{ id := db.nextId, task_type := task_type,
           task_name := task_name.getD task_type, status := "running",
           started_at := sw.t0, completed_at := none, result_data := none,
           error_message := none }], nextId := db.nextId + 1 } :=
      DBInv.append h (RowInv_running _ _ _ _)
    rcases hr : run_task reg task_type task_name sw.task with e | result
    · rcases hcE : sw.commitE with _ | m2
      · simp only [hcE]
        refine DBInv.map hdb1 ?_
        intro a hInv
        by_cases ha : (a.id == db.nextId) = true
        · rw [if_pos ha]
          exact ⟨fun hcon => by simp at hcon, fun _ => by simp⟩
        · rw [if_neg ha]
          exact hInv
      · simp only [hcE]
        exact hdb1
    · rcases hc2 : sw.commit2 with _ | m2
      · simp only [hc2]
        refine DBInv.map hdb1 ?_
        intro a hInv
        by_cases ha : (a.id == db.nextId) = true
        · rw [if_pos ha]
          exact ⟨fun hcon => by simp at hcon, fun _ => by simp⟩
        · rw [if_neg ha]
          exact hInv
      · simp only [hc2]
        exact hdb1
  · exact h

/-- The startup reconciliation sweep preserves the TaskLog invariant. -/
theorem reconcile_DBInv (db : DB) (now : Time) (fault : ReconFault)
    (h : DBInv db) : DBInv (reconcile_zombie_tasks db now fault).1 := by
  rcases fault with _ | m | m
  · show DBInv (if (db.rows.filter (fun r => r.status == "running")).isEmpty
        then ((db, false) : DB × Bool)
        else (reconcileUpdate db now, true)).1
    by_cases hE : (db.rows.filter (fun r => r.status == "running")).isEmpty = true
    · rw [if_pos hE]
      exact h
    · rw [if_neg hE]
      refine DBInv.map h ?_
      intro a hInv
      by_cases ha : (a.status == "running") = true
      · rw [if_pos ha]
        exact ⟨fun hcon => by simp at hcon, fun _ => by simp⟩
      · rw [if_neg ha]
        exact hInv
  · exact h
  · show DBInv (if (db.rows.filter (fun r => r.status == "running")).isEmpty
        then ((db, false) : DB × Bool) else (db, false)).1
    rw [ite_self]
    exact h

/-- C6: every operation that creates or mutates a TaskLog row — log
initialization, log finalization (always invoked with a terminal status),
the scheduler firing wrapper, and startup reconciliation — preserves the
invariant that a `running` row has `completed_at` NULL and every row with a
non-running status has `completed_at` set. -/
theorem tasklog_status_invariant (reg : Registry) (task_type : String)
    (task_name : Option String) (w : ExecWorld) (s : ExecState)
    (live : Bool) (logId : Option Nat) (st : String) (result : PyDict)
    (sw : SchedWorld) (db : DB) (now : Time) (fault : ReconFault) :
    (DBInv s.db →
      DBInv (ExecutionService.initialize_log w s task_type task_name).1.db) ∧
    (st ≠ "running" → DBInv s.db →
      DBInv (ExecutionService.finalize_log w s live logId task_type st result).db) ∧
    (DBInv s.db →
      DBInv (ExecutionService.execute_task reg task_type task_name w s).2.db) ∧
    (DBInv db →
      DBInv (execute_task_with_logging reg task_type task_name sw db).2.1) ∧
    (DBInv db → DBInv (reconcile_zombie_tasks db now fault).1) :=
  ⟨initialize_log_DBInv w s task_type task_name,
   fun hst h => finalize_log_DBInv w s live logId task_type st result hst h,
   execute_task_DBInv reg task_type task_name w s,
   scheduler_logging_DBInv reg task_type task_name sw db,
   reconcile_DBInv db now fault⟩

/-- Witness for C6: a full execution-service run starting from an empty
table, and a reconciliation over a table holding one zombie row, both end in
invariant-satisfying tables. -/
theorem tasklog_status_invariant_witness :
    DBInv (ExecutionService.execute_task TaskFactory.builtinRegistry "backup"
      none { initFault := .ok, finCommitOk := true, diskOk := true,
             task := { exc := none, now := 0 }, startTime := 0, endTime := 1,
             diskTime := 2 }
      { db := DB.empty, disk := [], alerts := [] }).2.db ∧
    DBInv (reconcile_zombie_tasks
      { rows := [{ id := 1, task_type := "backup", task_name := "b",
                   status := "running", started_at := 0, completed_at := none,
                   result_data := none, error_message := none }],
        nextId := 2 } 5 .ok).1 :=
  ⟨(tasklog_status_invariant TaskFactory.builtinRegistry "backup" none
      { initFault := .ok, finCommitOk := true, diskOk := true,
        task := { exc := none, now := 0 }, startTime := 0, endTime := 1,
        diskTime := 2 }
      { db := DB.empty, disk := [], alerts := [] } true none "failed" []
      { commit1 := none, commit2 := none, commitE := none,
        task := { exc := none, now := 0 }, t0 := 0, t1 := 0 }
      DB.empty 0 .ok).2.2.1
    (fun r hr => absurd hr (List.not_mem_nil r)),
   (tasklog_status_invariant TaskFactory.builtinRegistry "backup" none
      { initFault := .ok, finCommitOk := true, diskOk := true,
        task := { exc := none, now := 0 }, startTime := 0, endTime := 1,
        diskTime := 2 }
      { db := DB.empty, disk := [], alerts := [] } true none "failed" []
      { commit1 := none, commit2 := none, commitE := none,
        task := { exc := none, now := 0 }, t0 := 0, t1 := 0 }
      { rows := [{ id := 1, task_type := "backup", task_name := "b",
                   status := "running", started_at := 0, completed_at := none,
                   result_data := none, error_message := none }],
        nextId := 2 } 5 .ok).2.2.2.2
    (by
      intro r hr
      simp only [List.mem_singleton] at hr
      subst hr
      exact ⟨fun _ => rfl, fun hne => absurd rfl hne⟩)⟩

/-- The disk fallback file `execute_task` leaves behind is the one produced
by the finalize step; the alert step only touches the alert list. -/
theorem execute_task_disk_eq (reg : Registry) (task_type : String)
    (task_name : Option String) (w : ExecWorld) (s : ExecState) :
    (ExecutionService.execute_task reg task_type task_name w s).2.disk =
      (ExecutionService.finalize_log w
        (ExecutionService.initialize_log w s task_type task_name).1
        (ExecutionService.initialize_log w s task_type task_name).2.1
        (ExecutionService.initialize_log w s task_type task_name).2.2
        task_type
        (if PyDict.get (ExecutionService.run_task0 reg task_type task_name w.task)
            "status" == some (.s "success") then "completed" else "failed")
        (ExecutionService.run_task0 reg task_type task_name w.task)).disk := by
  unfold ExecutionService.execute_task
  dsimp only
  split <;> rfl

/-- A fallback write never removes existing entries. -/
theorem log_to_disk_mem (w : ExecWorld) (disk : List FallbackEntry)
    (task_type status : String) (data : PyDict) (a : FallbackEntry)
    (h : a ∈ disk) :
    a ∈ ExecutionService.log_to_disk w disk task_type status data := by
  unfold ExecutionService.log_to_disk
  split
  · exact List.mem_append_left _ h
  · exact h

/-- Finalization never removes existing fallback entries. -/
theorem finalize_log_disk_mem (w : ExecWorld) (s : ExecState) (live : Bool)
    (logId : Option Nat) (task_type st : String) (result : PyDict)
    (a : FallbackEntry) (h : a ∈ s.disk) :
    a ∈ (ExecutionService.finalize_log w s live logId task_type st result).disk := by
  rcases live with _ | _ <;> rcases logId with _ | id <;>
    simp only [ExecutionService.finalize_log] <;>
    try exact log_to_disk_mem w s.disk task_type st result a h
  rcases hrow : s.db.getRow id with _ | r <;> simp only [hrow]
  · exact log_to_disk_mem w s.disk task_type st result a h
  · rcases hfc : w.finCommitOk with _ | _
    · simp only [hfc, if_neg Bool.false_ne_true]
      exact log_to_disk_mem w s.disk task_type st result a h
    · simp only [hfc, if_pos rfl]
      exact h

/-- With the fallback file unwritable, a fallback write leaves it
unchanged. -/
theorem log_to_disk_diskOk_false (w : ExecWorld) (disk : List FallbackEntry)
    (task_type status : String) (data : PyDict) (h : w.diskOk = false) :
    ExecutionService.log_to_disk w disk task_type status data = disk := by
  simp [ExecutionService.log_to_disk, h]

/-- With the fallback file unwritable, log initialization leaves it
unchanged. -/
theorem initialize_log_disk_eq (w : ExecWorld) (s : ExecState)
    (task_type : String) (task_name : Option String) (h : w.diskOk = false) :
    (ExecutionService.initialize_log w s task_type task_name).1.disk = s.disk := by
  rcases hf : w.initFault with _ | m | m <;>
    simp [ExecutionService.initialize_log, hf, log_to_disk_diskOk_false _ _ _ _ _ h]

/-- With the fallback file unwritable, log finalization leaves it
unchanged. -/
theorem finalize_log_disk_eq (w : ExecWorld) (s : ExecState) (live : Bool)
    (logId : Option Nat) (task_type st : String) (result : PyDict)
    (h : w.diskOk = false) :
    (ExecutionService.finalize_log w s live logId task_type st result).disk = s.disk := by
  rcases live with _ | _ <;> rcases logId with _ | id <;>
    simp only [ExecutionService.finalize_log] <;>
    try exact log_to_disk_diskOk_false _ _ _ _ _ h
  rcases hrow : s.db.getRow id with _ | r <;> simp only [hrow]
  · exact log_to_disk_diskOk_false _ _ _ _ _ h
  · rcases hfc : w.finCommitOk with _ | _
    · simp only [hfc, if_neg Bool.false_ne_true]
      exact log_to_disk_diskOk_false _ _ _ _ _ h
    · simp only [hfc, if_pos rfl]
      rfl

/-- A finalize step whose commit fails writes the fallback entry carrying
the finalization status and the result dict. -/
theorem finalize_log_fail_mem (w : ExecWorld) (s : ExecState) (id : Nat)
    (task_type st : String) (result : PyDict) (hfin : w.finCommitOk = false)
    (hdisk : w.diskOk = true) :
    ({ timestamp := w.diskTime, task_type := task_type, status := st,
       data := result } : FallbackEntry) ∈
      (ExecutionService.finalize_log w s true (some id) task_type st result).disk := by
  simp only [ExecutionService.finalize_log]
  rcases hrow : s.db.getRow id with _ | r <;> simp only [hrow] <;>
    simp [hfin, ExecutionService.log_to_disk, hdisk]

/-- C3: a persistence failure during TaskLog creation or finalization is
recovered locally by `execute_task`: a fallback entry
`\x7btimestamp, task_type, status, data\x7d` is appended to the disk
fallback file — with status `running` and the `DB_DOWN` payload at creation,
or the finalization status together with the result dict at finalize —
execution proceeds and the result of the task itself is still returned; a
failure writing the disk fallback is swallowed (critical log only), leaving
the file unchanged while the same result is still returned, so no
persistence-path exception escapes `execute_task`. -/
theorem execute_task_double_fault_spec (reg : Registry) (task_type : String)
    (task_name : Option String) (w : ExecWorld) (s : ExecState) :
    (ExecutionService.execute_task reg task_type task_name w s).1 =
      ExecutionService.run_task0 reg task_type task_name w.task ∧
    (∀ m, w.initFault = .sessionFails m ∨ w.initFault = .commitFails m →
      w.diskOk = true →
      ({ timestamp := w.diskTime, task_type := task_type, status := "running",
         data := [("error", .s "DB_DOWN"), ("msg", .s m)] } : FallbackEntry) ∈
        (ExecutionService.execute_task reg task_type task_name w s).2.disk) ∧
    (w.initFault = .ok → w.finCommitOk = false → w.diskOk = true →
      ({ timestamp := w.diskTime, task_type := task_type,
         status := (if PyDict.get (ExecutionService.run_task0 reg task_type
             task_name w.task) "status" == some (.s "success")
           then "completed" else "failed"),
         data := ExecutionService.run_task0 reg task_type task_name w.task } :
          FallbackEntry) ∈
        (ExecutionService.execute_task reg task_type task_name w s).2.disk) ∧
    (w.diskOk = false →
      (ExecutionService.execute_task reg task_type task_name w s).2.disk = s.disk) := by
  refine ⟨rfl, ?_, ?_, ?_⟩
  · intro m hm hdisk
    rw [execute_task_disk_eq]
    refine finalize_log_disk_mem _ _ _ _ _ _ _ _ ?_
    rcases hm with hf | hf <;>
      simp [ExecutionService.initialize_log, hf,
        ExecutionService.log_to_disk, hdisk]
  · intro hinit hfin hdisk
    rw [execute_task_disk_eq]
    have h1 : (ExecutionService.initialize_log w s task_type task_name).2.1 = true := by
      simp [ExecutionService.initialize_log, hinit]
    have h2 : (ExecutionService.initialize_log w s task_type task_name).2.2 =
        some s.db.nextId := by
      simp [ExecutionService.initialize_log, hinit]
    rw [h1, h2]
    exact finalize_log_fail_mem _ _ _ _ _ _ hfin hdisk
  · intro hdisk
    rw [execute_task_disk_eq, finalize_log_disk_eq _ _ _ _ _ _ _ hdisk,
      initialize_log_disk_eq _ _ _ _ hdisk]

/-- Witness for C3: with the session raising at creation the `running`
fallback entry lands on disk, and with the disk also failing everything is
swallowed and the file stays empty. -/
theorem execute_task_double_fault_spec_witness :
    ({ timestamp := 9, task_type := "backup", status := "running",
       data := [("error", .s "DB_DOWN"), ("msg", .s "DB down")] } : FallbackEntry) ∈
      (ExecutionService.execute_task TaskFactory.builtinRegistry "backup" none
        { initFault := .sessionFails "DB down", finCommitOk := true,
          diskOk := true, task := { exc := none, now := 5 }, startTime := 3,
          endTime := 4, diskTime := 9 }
        { db := DB.empty, disk := [], alerts := [] }).2.disk ∧
    (ExecutionService.execute_task TaskFactory.builtinRegistry "backup" none
        { initFault := .sessionFails "DB down", finCommitOk := true,
          diskOk := false, task := { exc := none, now := 5 }, startTime := 3,
          endTime := 4, diskTime := 9 }
        { db := DB.empty, disk := [], alerts := [] }).2.disk = [] :=
  ⟨(execute_task_double_fault_spec TaskFactory.builtinRegistry "backup" none
      { initFault := .sessionFails "DB down", finCommitOk := true,
        diskOk := true, task := { exc := none, now := 5 }, startTime := 3,
        endTime := 4, diskTime := 9 }
      { db := DB.empty, disk := [], alerts := [] }).2.1 "DB down"
      (Or.inl rfl) rfl,
   (execute_task_double_fault_spec TaskFactory.builtinRegistry "backup" none
      { initFault := .sessionFails "DB down", finCommitOk := true,
        diskOk := false, task := { exc := none, now := 5 }, startTime := 3,
        endTime := 4, diskTime := 9 }
      { db := DB.empty, disk := [], alerts := [] }).2.2.2 rfl⟩

/-- When both persistence steps succeed, `execute_task` appends exactly the
finalized row to the committed table. -/
theorem execute_task_rows_eq (reg : Registry) (task_type : String)
    (task_name : Option String) (w : ExecWorld) (s : ExecState)
    (hwf : DB.WF s.db) (hinit : w.initFault = .ok)
    (hfin : w.finCommitOk = true) :
    (ExecutionService.execute_task reg task_type task_name w s).2.db.rows =
      s.db.rows ++ [expectedFinalRow reg task_type task_name w s] := by
  rw [execute_task_db_eq]
  have h1 : (ExecutionService.initialize_log w s task_type task_name).1 =
      { s with db := ⟨s.db.rows ++
          [⟨s.db.nextId, task_type, task_name.getD task_type, "running",
            w.startTime, none, none, none⟩], s.db.nextId + 1⟩ } := by
    simp [ExecutionService.initialize_log, hinit]
  have h2 : (ExecutionService.initialize_log w s task_type task_name).2.1 = true := by
    simp [ExecutionService.initialize_log, hinit]
  have h3 : (ExecutionService.initialize_log w s task_type task_name).2.2 =
      some s.db.nextId := by
    simp [ExecutionService.initialize_log, hinit]
  rw [h1, h2, h3]
  simp only [ExecutionService.finalize_log]
  rcases hrow : (⟨s.db.rows ++
      [⟨s.db.nextId, task_type, task_name.getD task_type, "running",
        w.startTime, none, none, none⟩], s.db.nextId + 1⟩ : DB).getRow
      s.db.nextId with _ | r
  · exfalso
    have := List.find?_eq_none.1 hrow
      ⟨s.db.nextId, task_type, task_name.getD task_type, "running",
        w.startTime, none, none, none⟩
      (List.mem_append_right _ (List.mem_singleton.2 rfl))
    simp at this
  · simp only [hrow]
    rw [if_pos hfin]
    dsimp only
    rw [List.map_append]
    congr 1
    · refine (List.map_congr_left ?_).trans (List.map_id _)
      intro a ha
      have hne : (a.id == s.db.nextId) = false := by
        have := Nat.ne_of_lt (hwf a ha)
        simpa using this
      rw [hne]
      simp
    · simp only [List.map_cons, List.map_nil]
      rw [if_pos (by simp :
        ((⟨s.db.nextId, task_type, task_name.getD task_type, "running",
          w.startTime, none, none, none⟩ : TaskLogRow).id == s.db.nextId) = true)]
      simp [expectedFinalRow]

/-- C4: the value `execute_task` returns is exactly the result produced by
the task execution (or the converted failure result when execution raised);
logging and alerting never modify it; and when persistence succeeds the
finalized TaskLog row has status `completed` exactly when the result status
equals `success` and `failed` otherwise, with the stored `result_data` and
`error_message` payloads truncated to at most 500 characters. -/
theorem execute_task_result_contract (reg : Registry) (task_type : String)
    (task_name : Option String) (w : ExecWorld) (s : ExecState) :
    (ExecutionService.execute_task reg task_type task_name w s).1 =
      ExecutionService.run_task0 reg task_type task_name w.task ∧
    (DB.WF s.db → w.initFault = .ok → w.finCommitOk = true →
      ∃ row : TaskLogRow,
        (ExecutionService.execute_task reg task_type task_name w s).2.db.rows =
          s.db.rows ++ [row] ∧
        (row.status = "completed" ↔
          PyDict.get (ExecutionService.run_task0 reg task_type task_name w.task)
            "status" = some (.s "success")) ∧
        (¬ PyDict.get (ExecutionService.run_task0 reg task_type task_name w.task)
            "status" = some (.s "success") → row.status = "failed") ∧
        (row.status = "completed" →
          row.result_data = some (pyTake (pyStrDict
            (ExecutionService.run_task0 reg task_type task_name w.task)) 500)) ∧
        (row.status = "failed" →
          row.error_message = some (pyTake
            (PyDict.getD (ExecutionService.run_task0 reg task_type task_name
              w.task) "error" (.s "Unknown")).str0 500)) ∧
        (∀ d ∈ row.result_data, d.length ≤ 500) ∧
        (∀ d ∈ row.error_message, d.length ≤ 500)) := by
  refine ⟨rfl, ?_⟩
  intro hwf hinit hfin
  refine ⟨expectedFinalRow reg task_type task_name w s,
    execute_task_rows_eq reg task_type task_name w s hwf hinit hfin, ?_⟩
  by_cases hc : (PyDict.get (ExecutionService.run_task0 reg task_type
      task_name w.task) "status" == some (.s "success")) = true
  · have hget : PyDict.get (ExecutionService.run_task0 reg task_type
        task_name w.task) "status" = some (.s "success") := by
      exact beq_iff_eq.1 hc
    have hst : (expectedFinalRow reg task_type task_name w s).status =
        "completed" := by
      simp [expectedFinalRow, hc]
    have hrd : (expectedFinalRow reg task_type task_name w s).result_data =
        some (pyTake (pyStrDict (ExecutionService.run_task0 reg task_type
          task_name w.task)) 500) := by
      simp [expectedFinalRow, hc]
    have hem : (expectedFinalRow reg task_type task_name w s).error_message =
        none := by
      simp [expectedFinalRow, hc]
    refine ⟨?_, ?_, ?_, ?_, ?_, ?_⟩
    · rw [hst]
      exact ⟨fun _ => hget, fun _ => rfl⟩
    · intro hno
      exact absurd hget hno
    · intro _
      exact hrd
    · intro hf
      rw [hst] at hf
      simp at hf
    · intro d hd
      rw [hrd, Option.mem_def, Option.some.injEq] at hd
      rw [← hd]
      exact pyTake_length_le _ _
    · intro d hd
      rw [hem] at hd
      simp at hd
  · have hget : ¬ PyDict.get (ExecutionService.run_task0 reg task_type
        task_name w.task) "status" = some (.s "success") := by
      intro heq
      exact hc (beq_iff_eq.2 heq)
    have hst : (expectedFinalRow reg task_type task_name w s).status =
        "failed" := by
      simp [expectedFinalRow, hc]
    have hrd : (expectedFinalRow reg task_type task_name w s).result_data =
        none := by
      simp [expectedFinalRow, hc]
    have hem : (expectedFinalRow reg task_type task_name w s).error_message =
        some (pyTake (PyDict.getD (ExecutionService.run_task0 reg task_type
          task_name w.task) "error" (.s "Unknown")).str0 500) := by
      simp [expectedFinalRow, hc]
    refine ⟨?_, ?_, ?_, ?_, ?_, ?_⟩
    · rw [hst]
      constructor
      · intro h
        simp at h
      · intro h
        exact absurd h hget
    · intro _
      exact hst
    · intro hcompleted
      rw [hst] at hcompleted
      simp at hcompleted
    · intro _
      exact hem
    · intro d hd
      rw [hrd] at hd
      simp at hd
    · intro d hd
      rw [hem, Option.mem_def, Option.some.injEq] at hd
      rw [← hd]
      exact pyTake_length_le _ _

/-- Witness for C4: a successful backup run from an empty table commits one
finalized row satisfying the full contract. -/
theorem execute_task_result_contract_witness :
    ∃ row : TaskLogRow,
      (ExecutionService.execute_task TaskFactory.builtinRegistry "backup" none
        { initFault := .ok, finCommitOk := true, diskOk := true,
          task := { exc := none, now := 5 }, startTime := 3, endTime := 4,
          diskTime := 9 }
        { db := DB.empty, disk := [], alerts := [] }).2.db.rows =
        ({ db := DB.empty, disk := [], alerts := [] } : ExecState).db.rows ++
          [row] ∧
      (row.status = "completed" ↔
        PyDict.get (ExecutionService.run_task0 TaskFactory.builtinRegistry
          "backup" none { exc := none, now := 5 }) "status" =
          some (.s "success")) ∧
      (¬ PyDict.get (ExecutionService.run_task0 TaskFactory.builtinRegistry
          "backup" none { exc := none, now := 5 }) "status" =
          some (.s "success") → row.status = "failed") ∧
      (row.status = "completed" →
        row.result_data = some (pyTake (pyStrDict
          (ExecutionService.run_task0 TaskFactory.builtinRegistry "backup"
            none { exc := none, now := 5 })) 500)) ∧
      (row.status = "failed" →
        row.error_message = some (pyTake
          (PyDict.getD (ExecutionService.run_task0 TaskFactory.builtinRegistry
            "backup" none { exc := none, now := 5 }) "error"
            (.s "Unknown")).str0 500)) ∧
      (∀ d ∈ row.result_data, d.length ≤ 500) ∧
      (∀ d ∈ row.error_message, d.length ≤ 500) :=
  (execute_task_result_contract TaskFactory.builtinRegistry "backup" none
    { initFault := .ok, finCommitOk := true, diskOk := true,
      task := { exc := none, now := 5 }, startTime := 3, endTime := 4,
      diskTime := 9 }
    { db := DB.empty, disk := [], alerts := [] }).2
    (fun r hr => absurd hr (List.not_mem_nil r)) rfl rfl

/-- Log initialization never touches the alert list. -/
theorem initialize_log_alerts_eq (w : ExecWorld) (s : ExecState)
    (task_type : String) (task_name : Option String) :
    (ExecutionService.initialize_log w s task_type task_name).1.alerts =
      s.alerts := by
  rcases hf : w.initFault with _ | m | m <;>
    simp [ExecutionService.initialize_log, hf]

/-- Log finalization never touches the alert list. -/
theorem finalize_log_alerts_eq (w : ExecWorld) (s : ExecState) (live : Bool)
    (logId : Option Nat) (task_type st : String) (result : PyDict) :
    (ExecutionService.finalize_log w s live logId task_type st result).alerts =
      s.alerts := by
  rcases live with _ | _ <;> rcases logId with _ | id <;>
    simp only [ExecutionService.finalize_log] <;> try rfl
  rcases hrow : s.db.getRow id with _ | r <;> simp only [hrow] <;>
    first
    | rfl
    | (split <;> rfl)

/-- The alert calls `execute_task` makes: exactly one
`alert_task_failure(task_type, error)` call when the final status is
`failed`, none otherwise — independent of every persistence outcome. -/
theorem execute_task_alerts_eq (reg : Registry) (task_type : String)
    (task_name : Option String) (w : ExecWorld) (s : ExecState) :
    (ExecutionService.execute_task reg task_type task_name w s).2.alerts =
      (if PyDict.get (ExecutionService.run_task0 reg task_type task_name
          w.task) "status" == some (.s "success") then s.alerts
       else s.alerts ++ [(task_type,
         (PyDict.getD (ExecutionService.run_task0 reg task_type task_name
           w.task) "error" (.s "Unknown error")).str0)]) := by
  unfold ExecutionService.execute_task
  dsimp only
  by_cases hc : (PyDict.get (ExecutionService.run_task0 reg task_type
      task_name w.task) "status" == some (.s "success")) = true
  · simp [hc, finalize_log_alerts_eq, initialize_log_alerts_eq]
  · simp only [Bool.not_eq_true] at hc
    simp [hc, finalize_log_alerts_eq, initialize_log_alerts_eq]

/-- C9: `ExecutionService.execute_task` never raises for any task-type
string: an unknown type does not propagate the factory error — the raised
`ValueError` is caught in the run step and converted into a returned failure
result carrying the factory message, the TaskLog row is finalized `failed`
with that message, and an alert is dispatched with it — unlike direct
factory use, which raises that very error. -/
theorem execute_task_unknown_type_spec (task_type : String)
    (task_name : Option String) (w : ExecWorld) (s : ExecState)
    (h : Registry.lookup TaskFactory.builtinRegistry (pyLower task_type) = none) :
    (ExecutionService.execute_task TaskFactory.builtinRegistry task_type
        task_name w s).1 =
      [("status", .s "failed"),
       ("error", .s ("Unknown task type: \x27" ++ task_type ++
         "\x27. Available types: backup, cleanup, report"))] ∧
    (ExecutionService.execute_task TaskFactory.builtinRegistry task_type
        task_name w s).2.alerts =
      s.alerts ++ [(task_type, "Unknown task type: \x27" ++ task_type ++
        "\x27. Available types: backup, cleanup, report")] ∧
    (DB.WF s.db → w.initFault = .ok → w.finCommitOk = true →
      ∃ row : TaskLogRow,
        (ExecutionService.execute_task TaskFactory.builtinRegistry task_type
            task_name w s).2.db.rows = s.db.rows ++ [row] ∧
        row.status = "failed" ∧
        row.error_message = some (pyTake ("Unknown task type: \x27" ++
          task_type ++ "\x27. Available types: backup, cleanup, report") 500)) ∧
    TaskFactory.create TaskFactory.builtinRegistry task_type none =
      .error (.valueError ("Unknown task type: \x27" ++ task_type ++
        "\x27. Available types: backup, cleanup, report")) := by
  have hcreate : ∀ nm : Option String,
      TaskFactory.create TaskFactory.builtinRegistry task_type nm =
        .error (.valueError ("Unknown task type: \x27" ++ task_type ++
          "\x27. Available types: backup, cleanup, report")) := by
    intro nm
    simp only [TaskFactory.create, h]
    rw [String.append_assoc]
    rfl
  have hrun : ExecutionService.run_task0 TaskFactory.builtinRegistry task_type
      task_name w.task =
      [("status", .s "failed"),
       ("error", .s ("Unknown task type: \x27" ++ task_type ++
         "\x27. Available types: backup, cleanup, report"))] := by
    unfold ExecutionService.run_task0 run_task
    rw [hcreate task_name]
    rfl
  refine ⟨hrun, ?_, ?_, hcreate none⟩
  · rw [execute_task_alerts_eq, hrun]
    simp [PyDict.get, PyDict.getD, PyVal.str0]
  · intro hwf hinit hfin
    refine ⟨expectedFinalRow TaskFactory.builtinRegistry task_type task_name w s,
      execute_task_rows_eq TaskFactory.builtinRegistry task_type task_name w s
        hwf hinit hfin, ?_, ?_⟩
    · simp [expectedFinalRow, hrun, PyDict.get]
    · simp [expectedFinalRow, hrun, PyDict.get, PyDict.getD, PyVal.str0]

/-- Witness for C9: the unknown type `mystery` is converted into a returned
failure result, alerted, and finalized `failed`, while direct factory use
raises. -/
theorem execute_task_unknown_type_spec_witness :
    (ExecutionService.execute_task TaskFactory.builtinRegistry "mystery"
        none { initFault := .ok, finCommitOk := true, diskOk := true,
               task := { exc := none, now := 5 }, startTime := 3,
               endTime := 4, diskTime := 9 }
        { db := DB.empty, disk := [], alerts := [] }).1 =
      [("status", .s "failed"),
       ("error", .s ("Unknown task type: \x27" ++ "mystery" ++
         "\x27. Available types: backup, cleanup, report"))] ∧
    (ExecutionService.execute_task TaskFactory.builtinRegistry "mystery"
        none { initFault := .ok, finCommitOk := true, diskOk := true,
               task := { exc := none, now := 5 }, startTime := 3,
               endTime := 4, diskTime := 9 }
        { db := DB.empty, disk := [], alerts := [] }).2.alerts =
      ({ db := DB.empty, disk := [], alerts := [] } : ExecState).alerts ++
        [("mystery", "Unknown task type: \x27" ++ "mystery" ++
          "\x27. Available types: backup, cleanup, report")] ∧
    (DB.WF ({ db := DB.empty, disk := [], alerts := [] } : ExecState).db →
      ({ initFault := .ok, finCommitOk := true, diskOk := true,
         task := { exc := none, now := 5 }, startTime := 3, endTime := 4,
         diskTime := 9 } : ExecWorld).initFault = .ok →
      ({ initFault := .ok, finCommitOk := true, diskOk := true,
         task := { exc := none, now := 5 }, startTime := 3, endTime := 4,
         diskTime := 9 } : ExecWorld).finCommitOk = true →
      ∃ row : TaskLogRow,
        (ExecutionService.execute_task TaskFactory.builtinRegistry "mystery"
            none { initFault := .ok, finCommitOk := true, diskOk := true,
                   task := { exc := none, now := 5 }, startTime := 3,
                   endTime := 4, diskTime := 9 }
            { db := DB.empty, disk := [], alerts := [] }).2.db.rows =
          ({ db := DB.empty, disk := [], alerts := [] } : ExecState).db.rows ++
            [row] ∧
        row.status = "failed" ∧
        row.error_message = some (pyTake ("Unknown task type: \x27" ++
          "mystery" ++ "\x27. Available types: backup, cleanup, report") 500)) ∧
    TaskFactory.create TaskFactory.builtinRegistry "mystery" none =
      .error (.valueError ("Unknown task type: \x27" ++ "mystery" ++
        "\x27. Available types: backup, cleanup, report")) :=
  execute_task_unknown_type_spec "mystery" none
    { initFault := .ok, finCommitOk := true, diskOk := true,
      task := { exc := none, now := 5 }, startTime := 3, endTime := 4,
      diskTime := 9 }
    { db := DB.empty, disk := [], alerts := [] } rfl
